import Mathlib

/-
Verification of the airgolf sensor-fusion / swing-detection / flight-physics
core against its specification.

The JavaScript sources are shallowly embedded: every mutable module-level
object (clubTipTracking, swingTimer, swingData, ballFlight, lastShot, the
game state) becomes an explicit state record that is threaded through the
translated functions.  JavaScript numbers are modelled as real numbers; the
two places where IEEE special values actually matter for the claims under
study (Math.max of an empty spread giving negative infinity, and a division
zero-by-zero giving NaN inside the Madgwick filter) are modelled explicitly
with WithBot and Option respectively.  Debug logging, sound playback and the
swing-replay recorder do not feed back into any tracked state and are
omitted; where a log message is the only observable marker of a code path
(the degraded-confidence velocity fallback) the model returns an explicit
flag instead.

Where two divergent variants of a module exist in the repository, the
variant that the module graph actually links (the game-logic variant that
exports targetState and checkSwingTimeout, which physics.js and main.js
import, and the tracking variant bundled with config.js that owns the
motion-gating state) is taken as the program; the stale variant is modelled
separately only where a claim cites it (the grip-mode axis remaps).
-/

namespace AirGolf

/-- A 3-component vector of JavaScript numbers, modelled over the reals. -/
structure Vec3 where
  x : ℝ
  y : ℝ
  z : ℝ

/-- Orientation quaternion, components w x y z as in clubTipTracking.quaternion. -/
structure Quat where
  w : ℝ
  x : ℝ
  y : ℝ
  z : ℝ

/-- Game states, from the GameState enumeration in config.js. -/
inductive GameState where
  | waitingPermission
  | readyToSetBall
  | ballSetReadyToSwing
  | swinging
  | ballFlying
  | showingResults
deriving DecidableEq

/-- Phone grip mode, the settings.phoneOrientation field: either the screen
or the edge of the phone faces the ball. -/
inductive PhoneGrip where
  | screen
  | edge
deriving DecidableEq

/-- The configuration record (defaultSettings in config.js); read-only to the
core.  Only the fields the modelled functions read are included. -/
structure Settings where
  phoneOrientation : PhoneGrip
  clubLength : ℝ
  clubWeight : ℝ
  ballDiameter : ℝ
  ballWeight : ℝ
  hitZoneDiameter : ℝ
  minSwingSpeed : ℝ
  loftAngle : ℝ
  gravity : ℝ
  airResistance : ℝ
  impactPower : ℝ
  spinEffect : ℝ
  swingTimeout : ℝ

/-- One entry of clubTipTracking.history: a recorded tip position with the
Date.now() timestamp (milliseconds) at which it was pushed. -/
structure HistEntry where
  position : Vec3
  timestamp : ℝ

/- ============================================================
   Grip-mode axis remaps (claim C4).

   tipPositionRemap is the phone-orientation block of
   calculateClubTipPosition in tracking.js (lines 168-178): in edge mode
   tipX becomes the old tipY, tipY the old tipX, tipZ unchanged.

   impactVelocityRemap is the phone-orientation block of
   calculateImpactVelocity in game-logic.js (lines 322-332): in edge mode
   vx becomes the old vy, vy the negated old vz, vz the old vx.
   ============================================================ -/

/-- Axis remap the tip tracker applies to the computed tip position,
from tracking.js calculateClubTipPosition. -/
def tipPositionRemap (mode : PhoneGrip) (v : Vec3) : Vec3 :=
  match mode with
  | .edge => ⟨v.y, v.x, v.z⟩
  | .screen => v

/-- Axis remap the impact resolver applies to the raw velocity estimate,
from game-logic.js calculateImpactVelocity. -/
def impactVelocityRemap (mode : PhoneGrip) (v : Vec3) : Vec3 :=
  match mode with
  | .edge => ⟨v.y, -v.z, v.x⟩
  | .screen => v

/-- C4 counterexample: in edge mode the resolver remap does not invert the
tracker remap.  At v = (0,0,1) the tracker remap leaves v unchanged and the
resolver remap then sends it to (0,-1,0), not back to v. -/
theorem edge_remap_roundtrip_fails :
    impactVelocityRemap PhoneGrip.edge
      (tipPositionRemap PhoneGrip.edge ⟨0, 0, 1⟩) ≠ ⟨0, 0, 1⟩ := by
  intro h
  have hy := congrArg Vec3.y h
  simp [impactVelocityRemap, tipPositionRemap] at hy

/-- C4 amended: the remap round trip is the identity in screen mode (both
remaps are no-ops there), while in edge mode the composition of the tracker
remap followed by the resolver remap is the rotation
(x, y, z) to (x, -z, y), which is not the identity. -/
theorem remap_roundtrip_characterization (v : Vec3) :
    impactVelocityRemap PhoneGrip.screen (tipPositionRemap PhoneGrip.screen v) = v ∧
    impactVelocityRemap PhoneGrip.edge (tipPositionRemap PhoneGrip.edge v) =
      ⟨v.x, -v.z, v.y⟩ := by
  constructor <;> rfl

/- ============================================================
   Swing session state and hit detection (claims C1, C9, C2).

   The fields gather the module-level mutables that the state machine
   reads and writes: swingData.hitDetected, the game state, the swing
   timer, ballPosition.set, and a counter of alarm-sound emissions
   standing in for the playAlarmSound timeout signal.
   ============================================================ -/

/-- swingTimer from game-logic.js. -/
structure SwingTimer where
  startTime : ℝ
  timeRemaining : ℝ
  expired : Bool

/-- The swing-session slice of the module state: swingTimer, currentState,
ballPosition.set, swingData.hitDetected, plus a count of timeout alarm
signals (each playAlarmSound call in handleSwingTimeout increments it). -/
structure SessionState where
  timer : SwingTimer
  currentState : GameState
  ballSet : Bool
  hitDetected : Bool
  alarms : ℕ

/-- Euclidean norm of a 3-vector, as Math.sqrt of the sum of squared
components (the source computes this pattern inline several times). -/
noncomputable def vecMag (v : Vec3) : ℝ :=
  Real.sqrt (v.x ^ 2 + v.y ^ 2 + v.z ^ 2)

/-- Distance of a recorded history position from the origin, the mapping
applied to recentHistory inside detectBallHit. -/
noncomputable def histDistance (e : HistEntry) : ℝ :=
  vecMag e.position

/-- JavaScript Math.max over a spread array: the maximum with negative
infinity (WithBot bottom) as the value on the empty list. -/
noncomputable def jsMax (l : List ℝ) : WithBot ℝ := l.maximum

/-- detectBallHit from game-logic.js: if a hit was already detected the call
returns immediately.  Otherwise the tip distance from the origin, the hit
threshold hitZoneDiameter/200, and the total acceleration magnitude are
computed; when the tip is inside the threshold and the acceleration exceeds
minSwingSpeed, the maximum origin distance over the last 20 history samples
must additionally exceed 0.15 m for registerBallHit to run.  Of
registerBallHit only the effects on the modelled state slice are kept:
hitDetected becomes true and the state becomes BALL_FLYING (impact-velocity
computation and ball launch are modelled separately below).  The settings
are a parameter, so the null-settings early return of the source cannot
arise here. -/
noncomputable def detectBallHit (s : Settings) (accel tip : Vec3)
    (history : List HistEntry) (st : SessionState) : SessionState :=
  if st.hitDetected then st
  else
    let tipDistance := vecMag tip
    let hitThreshold := s.hitZoneDiameter / 200
    let totalAcceleration := vecMag accel
    if tipDistance < hitThreshold ∧ totalAcceleration > s.minSwingSpeed then
      let recentHistory := history.drop (history.length - 20)
      let maxDistance := jsMax (recentHistory.map histDistance)
      if ((0.15 : ℝ) : WithBot ℝ) < maxDistance then
        { st with hitDetected := true, currentState := GameState.ballFlying }
      else st
    else st

/-- Characterization of detectBallHit, shared by the hit-detection claims:
with no hit yet detected the call registers a hit exactly when the three
gating conditions hold, and with a hit already detected it is the identity. -/
lemma detectBallHit_characterization (s : Settings) (accel tip : Vec3)
    (history : List HistEntry) (st : SessionState)
    (h : st.hitDetected = false) :
    (((detectBallHit s accel tip history st).hitDetected = true ∧
      (detectBallHit s accel tip history st).currentState = GameState.ballFlying) ↔
     (vecMag tip < s.hitZoneDiameter / 200 ∧
      vecMag accel > s.minSwingSpeed ∧
      ((0.15 : ℝ) : WithBot ℝ) <
        jsMax ((history.drop (history.length - 20)).map histDistance))) ∧
    (∀ st' : SessionState, st'.hitDetected = true →
      detectBallHit s accel tip history st' = st') := by
  constructor
  · unfold detectBallHit
    rw [if_neg (by simp [h])]
    by_cases h1 : vecMag tip < s.hitZoneDiameter / 200 ∧ vecMag accel > s.minSwingSpeed
    · rw [if_pos h1]
      by_cases h2 : ((0.15 : ℝ) : WithBot ℝ) <
          jsMax ((history.drop (history.length - 20)).map histDistance)
      · rw [if_pos h2]
        exact iff_of_true ⟨rfl, rfl⟩ ⟨h1.1, h1.2, h2⟩
      · rw [if_neg h2]
        refine iff_of_false ?_ ?_
        · intro hc
          rw [h] at hc
          exact Bool.false_ne_true hc.1
        · intro hc
          exact h2 hc.2.2
    · rw [if_neg h1]
      refine iff_of_false ?_ ?_
      · intro hc
        rw [h] at hc
        exact Bool.false_ne_true hc.1
      · intro hc
        exact h1 ⟨hc.1, hc.2.1⟩
  · intro st' h'
    unfold detectBallHit
    rw [if_pos (by simp [h'])]

/-- C1: for a tick processed with no hit yet detected, detectBallHit
registers a hit (hitDetected set and state moved to BallFlying) exactly when
the tip distance is below hitZoneDiameter/200, the acceleration magnitude
exceeds minSwingSpeed, and the maximum tip distance over the last 20 history
samples exceeds 0.15 m; and once hitDetected is set, any detectBallHit call
is a no-op. -/
theorem detectBallHit_spec (s : Settings) (accel tip : Vec3)
    (history : List HistEntry) (st : SessionState)
    (h : st.hitDetected = false) :
    (((detectBallHit s accel tip history st).hitDetected = true ∧
      (detectBallHit s accel tip history st).currentState = GameState.ballFlying) ↔
     (vecMag tip < s.hitZoneDiameter / 200 ∧
      vecMag accel > s.minSwingSpeed ∧
      ((0.15 : ℝ) : WithBot ℝ) <
        jsMax ((history.drop (history.length - 20)).map histDistance))) ∧
    (∀ st' : SessionState, st'.hitDetected = true →
      detectBallHit s accel tip history st' = st') :=
  detectBallHit_characterization s accel tip history st h

/-- The default settings from config.js, used as a concrete test fixture. -/
def testSettings : Settings :=
  { phoneOrientation := PhoneGrip.edge, clubLength := 1.2, clubWeight := 200,
    ballDiameter := 4.3, ballWeight := 45.9, hitZoneDiameter := 30,
    minSwingSpeed := 5, loftAngle := 25, gravity := 9.81, airResistance := 0.5,
    impactPower := 1.5, spinEffect := 5, swingTimeout := 10 }

/-- A mid-swing session with no hit detected, used as a concrete fixture. -/
def swingingState : SessionState :=
  { timer := ⟨0, 10, false⟩, currentState := GameState.swinging,
    ballSet := true, hitDetected := false, alarms := 0 }

/-- A one-sample backswing history whose position is 0.2 m from the origin. -/
def sampleHistory : List HistEntry := [⟨⟨0, 0.2, 0⟩, 1000⟩]

lemma vecMag_origin : vecMag ⟨0, 0, 0⟩ = 0 := by
  simp [vecMag]

lemma vecMag_y6 : vecMag ⟨0, 6, 0⟩ = 6 := by
  unfold vecMag
  rw [show ((0 : ℝ) ^ 2 + 6 ^ 2 + 0 ^ 2) = 6 ^ 2 by norm_num]
  exact Real.sqrt_sq (by norm_num)

lemma sampleHistory_max :
    ((0.15 : ℝ) : WithBot ℝ) <
      jsMax ((sampleHistory.drop (sampleHistory.length - 20)).map histDistance) := by
  have hhist : histDistance ⟨⟨0, 0.2, 0⟩, 1000⟩ = 0.2 := by
    unfold histDistance vecMag
    rw [show ((0 : ℝ) ^ 2 + 0.2 ^ 2 + 0 ^ 2) = 0.2 ^ 2 by norm_num]
    exact Real.sqrt_sq (by norm_num)
  simp only [sampleHistory, List.length_cons, List.length_nil, List.drop,
    List.map_cons, List.map_nil, jsMax, hhist]
  rw [List.maximum_singleton]
  exact_mod_cast (by norm_num : (0.15 : ℝ) < 0.2)

/-- Concrete witness for C1: with the default 30 cm hit zone and a 5.0
minimum swing speed, a tip at the origin, acceleration (0,6,0) and a single
history sample at distance 0.2 m from the origin register a hit. -/
theorem detectBallHit_spec_witness :
    swingingState.hitDetected = false ∧
    (detectBallHit testSettings ⟨0, 6, 0⟩ ⟨0, 0, 0⟩ sampleHistory
      swingingState).currentState = GameState.ballFlying := by
  refine ⟨rfl, ((detectBallHit_spec testSettings ⟨0, 6, 0⟩ ⟨0, 0, 0⟩
    sampleHistory swingingState rfl).1.mpr ⟨?_, ?_, sampleHistory_max⟩).2⟩
  · rw [vecMag_origin]
    show (0 : ℝ) < testSettings.hitZoneDiameter / 200
    norm_num [testSettings]
  · rw [vecMag_y6]
    show testSettings.minSwingSpeed < 6
    norm_num [testSettings]

/-- C9: hit gating is monotone in the detection parameters.  If a hit is
registered for a trace under settings s, then under settings t with a
smaller-or-equal minSwingSpeed and a larger-or-equal hitZoneDiameter (the
other inputs unchanged) the same trace still registers the hit. -/
theorem detectBallHit_monotone (s t : Settings) (accel tip : Vec3)
    (history : List HistEntry) (st : SessionState)
    (hmin : t.minSwingSpeed ≤ s.minSwingSpeed)
    (hzone : s.hitZoneDiameter ≤ t.hitZoneDiameter)
    (hst : st.hitDetected = false)
    (hhit : (detectBallHit s accel tip history st).hitDetected = true ∧
      (detectBallHit s accel tip history st).currentState = GameState.ballFlying) :
    (detectBallHit t accel tip history st).hitDetected = true ∧
    (detectBallHit t accel tip history st).currentState = GameState.ballFlying := by
  obtain ⟨h1, h2, h3⟩ :=
    (detectBallHit_characterization s accel tip history st hst).1.mp hhit
  refine (detectBallHit_characterization t accel tip history st hst).1.mpr ⟨?_, ?_, h3⟩
  · exact lt_of_lt_of_le h1 (by
      have := hzone
      linarith)
  · exact lt_of_le_of_lt hmin h2

/-- The default settings with a lower minimum swing speed and a larger hit
zone, for exercising the monotonicity claim. -/
def looseSettings : Settings :=
  { testSettings with minSwingSpeed := 4, hitZoneDiameter := 40 }

/-- Concrete witness for C9: the hit registered under the default settings
is still registered after lowering minSwingSpeed to 4 and enlarging
hitZoneDiameter to 40. -/
theorem detectBallHit_monotone_witness :
    looseSettings.minSwingSpeed ≤ testSettings.minSwingSpeed ∧
    testSettings.hitZoneDiameter ≤ looseSettings.hitZoneDiameter ∧
    (detectBallHit looseSettings ⟨0, 6, 0⟩ ⟨0, 0, 0⟩ sampleHistory
      swingingState).hitDetected = true := by
  have hbase : (detectBallHit testSettings ⟨0, 6, 0⟩ ⟨0, 0, 0⟩ sampleHistory
      swingingState).hitDetected = true ∧
      (detectBallHit testSettings ⟨0, 6, 0⟩ ⟨0, 0, 0⟩ sampleHistory
        swingingState).currentState = GameState.ballFlying := by
    refine (detectBallHit_characterization testSettings ⟨0, 6, 0⟩ ⟨0, 0, 0⟩
      sampleHistory swingingState rfl).1.mpr ⟨?_, ?_, sampleHistory_max⟩
    · rw [vecMag_origin]
      show (0 : ℝ) < testSettings.hitZoneDiameter / 200
      norm_num [testSettings]
    · rw [vecMag_y6]
      show testSettings.minSwingSpeed < 6
      norm_num [testSettings]
  refine ⟨by norm_num [looseSettings, testSettings],
    by norm_num [looseSettings, testSettings], ?_⟩
  exact (detectBallHit_monotone testSettings looseSettings ⟨0, 6, 0⟩ ⟨0, 0, 0⟩
    sampleHistory swingingState
    (by norm_num [looseSettings, testSettings])
    (by norm_num [looseSettings, testSettings]) rfl hbase).1

/- ============================================================
   Swing timeout (claim C2), from the exported checkSwingTimeout and
   handleSwingTimeout of the game-logic module (the variant wired through
   main.js and renderer.js).
   ============================================================ -/

/-- handleSwingTimeout: plays the alarm (counted), cancels any recording
(replay recorder not modelled), forces the state back to READY_TO_SET_BALL,
clears ballPosition.set and swingData.hitDetected. -/
def handleSwingTimeout (st : SessionState) : SessionState :=
  { st with
      currentState := GameState.readyToSetBall, ballSet := false,
      hitDetected := false, alarms := st.alarms + 1 }

/-- checkSwingTimeout: a no-op once expired; otherwise recomputes the
remaining time as max(0, swingTimeout - elapsedSeconds) and, when that is
at most zero, marks the timer expired and runs handleSwingTimeout.  The
settings object is a parameter (T = settings.swingTimeout), so the
null-settings early return of the source cannot arise here. -/
noncomputable def checkSwingTimeout (T now : ℝ) (st : SessionState) : SessionState :=
  if st.timer.expired then st
  else
    let elapsed := (now - st.timer.startTime) / 1000
    let remaining := max 0 (T - elapsed)
    if remaining ≤ 0 then
      handleSwingTimeout
        { st with timer := { st.timer with timeRemaining := remaining, expired := true } }
    else
      { st with timer := { st.timer with timeRemaining := remaining } }

/-- The session state right after setBallPosition and startSwingDetection:
timer started at t0 with T seconds remaining, state SWINGING. -/
def setBallSession (T t0 : ℝ) : SessionState :=
  { timer := ⟨t0, T, false⟩, currentState := GameState.swinging,
    ballSet := true, hitDetected := false, alarms := 0 }

/-- Folding checkSwingTimeout over a list of tick times. -/
noncomputable def runTimeoutTicks (T : ℝ) (ticks : List ℝ) (st : SessionState) :
    SessionState :=
  ticks.foldl (fun s now => checkSwingTimeout T now s) st

lemma checkSwingTimeout_of_expired (T now : ℝ) (st : SessionState)
    (h : st.timer.expired = true) : checkSwingTimeout T now st = st := by
  unfold checkSwingTimeout
  rw [if_pos (by simp [h])]

lemma runTimeoutTicks_of_expired (T : ℝ) (ticks : List ℝ) (st : SessionState)
    (h : st.timer.expired = true) : runTimeoutTicks T ticks st = st := by
  induction ticks with
  | nil => rfl
  | cons a l ih =>
      unfold runTimeoutTicks at *
      simp only [List.foldl_cons, checkSwingTimeout_of_expired T a st h, ih]

lemma checkSwingTimeout_fires (T now : ℝ) (st : SessionState)
    (h : st.timer.expired = false) (hq : T ≤ (now - st.timer.startTime) / 1000) :
    checkSwingTimeout T now st =
      handleSwingTimeout
        { st with timer := { st.timer with
            timeRemaining := max 0 (T - (now - st.timer.startTime) / 1000),
            expired := true } } := by
  unfold checkSwingTimeout
  rw [if_neg (by simp [h]), if_pos (by simp only [max_le_iff, le_refl, true_and]; linarith)]

lemma checkSwingTimeout_waits (T now : ℝ) (st : SessionState)
    (h : st.timer.expired = false) (hq : ¬ T ≤ (now - st.timer.startTime) / 1000) :
    checkSwingTimeout T now st =
      { st with timer := { st.timer with
          timeRemaining := max 0 (T - (now - st.timer.startTime) / 1000) } } := by
  unfold checkSwingTimeout
  rw [if_neg (by simp [h])]
  rw [if_neg ?_]
  simp only [max_le_iff, le_refl, true_and, not_le]
  linarith [not_le.mp hq]

lemma runTimeoutTicks_cons (T a : ℝ) (l : List ℝ) (st : SessionState) :
    runTimeoutTicks T (a :: l) st = runTimeoutTicks T l (checkSwingTimeout T a st) :=
  rfl

lemma runTimeoutTicks_qualifying (T t0 : ℝ) (ticks : List ℝ) :
    ∀ st : SessionState, st.timer.expired = false → st.timer.startTime = t0 →
    (∃ now ∈ ticks, T ≤ (now - t0) / 1000) →
    (runTimeoutTicks T ticks st).currentState = GameState.readyToSetBall ∧
    (runTimeoutTicks T ticks st).timer.expired = true ∧
    (runTimeoutTicks T ticks st).alarms = st.alarms + 1 := by
  induction ticks with
  | nil =>
      intro st _ _ hq
      simp at hq
  | cons a l ih =>
      intro st hexp hstart hq
      rw [runTimeoutTicks_cons]
      by_cases ha : T ≤ (a - t0) / 1000
      · rw [checkSwingTimeout_fires T a st hexp (hstart ▸ ha)]
        rw [runTimeoutTicks_of_expired T l _ rfl]
        exact ⟨rfl, rfl, rfl⟩
      · rw [checkSwingTimeout_waits T a st hexp (hstart ▸ ha)]
        have hq' : ∃ now ∈ l, T ≤ (now - t0) / 1000 := by
          rcases hq with ⟨now, hmem, hnow⟩
          rcases List.mem_cons.mp hmem with rfl | hmem'
          · exact absurd hnow ha
          · exact ⟨now, hmem', hnow⟩
        exact ih _ hexp hstart hq'

/-- C2: a session started by setBallPosition with timeout T that receives a
tick at which T seconds have elapsed transitions to ReadyToSetBall with the
timer expired and exactly one timeout signal over the whole tick sequence,
no matter how many further ticks follow; and any checkSwingTimeout call on
an expired timer is a no-op. -/
theorem checkSwingTimeout_once (T t0 : ℝ) (ticks : List ℝ)
    (hq : ∃ now ∈ ticks, T ≤ (now - t0) / 1000) :
    (runTimeoutTicks T ticks (setBallSession T t0)).currentState =
      GameState.readyToSetBall ∧
    (runTimeoutTicks T ticks (setBallSession T t0)).timer.expired = true ∧
    (runTimeoutTicks T ticks (setBallSession T t0)).alarms = 1 ∧
    (∀ now : ℝ, ∀ st : SessionState, st.timer.expired = true →
      checkSwingTimeout T now st = st) := by
  obtain ⟨h1, h2, h3⟩ :=
    runTimeoutTicks_qualifying T t0 ticks (setBallSession T t0) rfl rfl hq
  exact ⟨h1, h2, h3, fun now st h => checkSwingTimeout_of_expired T now st h⟩

/-- Concrete witness for C2: with a 10 s timeout started at time 0, ticks at
5 s, 11 s, 12 s and 13 s produce exactly one timeout signal and leave the
session back at ReadyToSetBall. -/
theorem checkSwingTimeout_once_witness :
    (∃ now ∈ [(5000 : ℝ), 11000, 12000, 13000], (10 : ℝ) ≤ (now - 0) / 1000) ∧
    (runTimeoutTicks 10 [5000, 11000, 12000, 13000]
      (setBallSession 10 0)).alarms = 1 := by
  have hq : ∃ now ∈ [(5000 : ℝ), 11000, 12000, 13000], (10 : ℝ) ≤ (now - 0) / 1000 :=
    ⟨11000, by norm_num, by norm_num⟩
  exact ⟨hq, (checkSwingTimeout_once 10 0 [5000, 11000, 12000, 13000] hq).2.2.1⟩

/- ============================================================
   Madgwick orientation filter (claim C3), from madgwickFilterUpdate in
   the tracking module (identical in both variants in the repository).

   JavaScript number semantics are kept for the two division sites that
   have no guard: when the gradient norm sNorm is zero, every component of
   the quaternion becomes 0/0 = NaN, and when the post-integration norm
   qNorm is zero the renormalization divides zero by zero likewise.  A NaN
   quaternion is modelled as the value none; once none, every further
   update keeps it none, exactly as NaN propagates through the arithmetic
   of the source.  The early return on a zero-norm accelerometer sample
   leaves the quaternion unchanged.
   ============================================================ -/

/-- madgwickFilterUpdate from the tracking module, translated line by
line; beta is clubTipTracking.beta, returning the updated quaternion or
none when the unguarded renormalization produces NaN. -/
noncomputable def madgwickFilterUpdate (beta : ℝ) (q : Quat) (g a m : Vec3)
    (dt : ℝ) : Option Quat :=
  let gx := g.x * Real.pi / 180
  let gy := g.y * Real.pi / 180
  let gz := g.z * Real.pi / 180
  let anorm := Real.sqrt (a.x * a.x + a.y * a.y + a.z * a.z)
  if anorm = 0 then some q
  else
    let ax := a.x / anorm
    let ay := a.y / anorm
    let az := a.z / anorm
    let _2q0 := 2 * q.w
    let _2q1 := 2 * q.x
    let _2q2 := 2 * q.y
    let _2q3 := 2 * q.z
    let _4q0 := 4 * q.w
    let _4q1 := 4 * q.x
    let _4q2 := 4 * q.y
    let _8q1 := 8 * q.x
    let _8q2 := 8 * q.y
    let q0q0 := q.w * q.w
    let q1q1 := q.x * q.x
    let q2q2 := q.y * q.y
    let q3q3 := q.z * q.z
    let q0q1 := q.w * q.x
    let q0q2 := q.w * q.y
    let q0q3 := q.w * q.z
    let q1q2 := q.x * q.y
    let q1q3 := q.x * q.z
    let q2q3 := q.y * q.z
    let s0a := _4q0 * q2q2 + _2q2 * ax + _4q0 * q1q1 - _2q1 * ay
    let s1a := _4q1 * q3q3 - _2q3 * ax + 4 * q0q0 * q.x - _2q0 * ay - _4q1 +
      _8q1 * q1q1 + _8q1 * q2q2 + _4q1 * az
    let s2a := 4 * q0q0 * q.y + _2q0 * ax + _4q2 * q3q3 - _2q3 * ay - _4q2 +
      _8q2 * q1q1 + _8q2 * q2q2 + _4q2 * az
    let s3a := 4 * q1q1 * q.z - _2q1 * ax + 4 * q2q2 * q.z - _2q2 * ay
    let sv :=
      if m.x ≠ 0 ∨ m.y ≠ 0 ∨ m.z ≠ 0 then
        let mNorm := Real.sqrt (m.x * m.x + m.y * m.y + m.z * m.z)
        if mNorm > 0 then
          let mx := m.x / mNorm
          let my := m.y / mNorm
          let mz := m.z / mNorm
          let _2q0mx := 2 * q.w * mx
          let _2q0my := 2 * q.w * my
          let _2q0mz := 2 * q.w * mz
          let _2q1mx := 2 * q.x * mx
          let hx := mx * q0q0 - _2q0my * q.z + _2q0mz * q.y + mx * q1q1 +
            _2q1 * my * q.y + _2q1 * mz * q.z - mx * q2q2 - mx * q3q3
          let hy := _2q0mx * q.z + my * q0q0 - _2q0mz * q.x + _2q1mx * q.y -
            my * q1q1 + my * q2q2 + _2q2 * mz * q.z - my * q3q3
          let _2bx := Real.sqrt (hx * hx + hy * hy)
          let _2bz := -_2q0mx * q.y + _2q0my * q.x + mz * q0q0 + _2q1mx * q.z -
            mz * q1q1 + _2q2 * my * q.z - mz * q2q2 + mz * q3q3
          let _4bx := 2 * _2bx
          let _4bz := 2 * _2bz
          (s0a - (-_2q2 * _2bx * (q1q1 + q2q2 - 0.5 - q3q3) +
              _2q3 * _2bz * (q1q2 - q0q3)),
           s1a - (_2q2 * _2bx * (q0q2 + q1q3) - _2q3 * _2bz * (q0q1 + q2q3)),
           s2a - (-_2q1 * _2bx * (q0q2 + q1q3) -
              _2q0 * _2bz * (0.5 - q1q1 - q2q2) + _4bz * q.y),
           s3a - (_2q1 * _2bx * (q1q1 + q2q2 - 0.5 - q3q3) +
              _2q0 * _2bz * (q0q1 - q2q3) - _4bx * q.z))
        else (s0a, s1a, s2a, s3a)
      else (s0a, s1a, s2a, s3a)
    let s0 := sv.1
    let s1 := sv.2.1
    let s2 := sv.2.2.1
    let s3 := sv.2.2.2
    let sNorm := Real.sqrt (s0 * s0 + s1 * s1 + s2 * s2 + s3 * s3)
    if sNorm = 0 then none
    else
      let qDot1 := 0.5 * (-q.x * gx - q.y * gy - q.z * gz) - beta * (s0 / sNorm)
      let qDot2 := 0.5 * (q.w * gx + q.y * gz - q.z * gy) - beta * (s1 / sNorm)
      let qDot3 := 0.5 * (q.w * gy - q.x * gz + q.z * gx) - beta * (s2 / sNorm)
      let qDot4 := 0.5 * (q.w * gz + q.x * gy - q.y * gx) - beta * (s3 / sNorm)
      let w2 := q.w + qDot1 * dt
      let x2 := q.x + qDot2 * dt
      let y2 := q.y + qDot3 * dt
      let z2 := q.z + qDot4 * dt
      let qNorm := Real.sqrt (w2 * w2 + x2 * x2 + y2 * y2 + z2 * z2)
      if qNorm = 0 then none
      else some ⟨w2 / qNorm, x2 / qNorm, y2 / qNorm, z2 / qNorm⟩

/-- When the orientation estimate is the identity quaternion and the
accelerometer reads pure positive z gravity (any magnitude c > 0), the
accelerometer gradient vanishes, sNorm is zero, and the unguarded division
turns the whole quaternion into NaN. -/
lemma madgwick_aligned_gravity_nan (beta dt c : ℝ) (hc : 0 < c) :
    madgwickFilterUpdate beta ⟨1, 0, 0, 0⟩ ⟨0, 0, 0⟩ ⟨0, 0, c⟩ ⟨0, 0, 0⟩ dt =
      none := by
  unfold madgwickFilterUpdate
  norm_num [Real.sqrt_mul_self hc.le, hc.ne', div_self hc.ne', Real.sqrt_zero]

/-- C3: the quaternion-norm invariant fails on the code.  At the initial
identity quaternion with a finite, nonzero-norm accelerometer input
(0,0,1), zero gyro rates and no magnetometer, the gradient norm is zero and
the unguarded division by it yields an all-NaN quaternion whose norm is not
within 1e-6 of 1 (it is not a number at all). -/
theorem madgwick_nan_on_aligned_accel :
    madgwickFilterUpdate 0.1 ⟨1, 0, 0, 0⟩ ⟨0, 0, 0⟩ ⟨0, 0, 1⟩ ⟨0, 0, 0⟩
      (1 / 60) = none :=
  madgwick_aligned_gravity_nan 0.1 (1 / 60) 1 one_pos

/- ============================================================
   Impact velocity (claims C5, C6), from calculateImpactVelocity in the
   linked game-logic variant: finite-difference estimate over the most
   recent and 5th-most-recent history samples, acceleration-based fallback
   below 5 samples, zero-delta guard, then loft transform, club scaling,
   x negation and the forced-positive z component.
   ============================================================ -/

/-- Default entry for List.getD; in the guarded branch the looked-up
indices are always in range, so this value is never read. -/
def defaultHistEntry : HistEntry := ⟨⟨0, 0, 0⟩, 0⟩

/-- The transform pipeline applied to the raw velocity estimate inside
calculateImpactVelocity: loft-angle conversion of a downward vy, scaling by
clubWeight/200 times impactPower, x negation (compensating the sensor axis
inversions applied in the tracking module) and the absolute value forcing
the z component away from the player. -/
noncomputable def impactTransform (s : Settings) (v : Vec3) : Vec3 :=
  let loftRadians := s.loftAngle * Real.pi / 180
  let horizontalSpeed := Real.sqrt (v.x * v.x + v.z * v.z)
  let vyLofted :=
    if v.y < 0 then
      horizontalSpeed * Real.sin loftRadians + |v.y| * Real.cos loftRadians
    else v.y
  let weightFactor := s.clubWeight / 200
  let totalScale := weightFactor * s.impactPower
  let finalVz := |v.z * totalScale|
  ⟨-v.x * totalScale, vyLofted * totalScale, finalVz⟩

/-- Result of calculateImpactVelocity together with a flag recording
whether the low-history acceleration fallback was taken (the code marks
that path with a distinguished debug message). -/
structure ImpactOutcome where
  velocity : Vec3
  usedFallback : Bool

/-- calculateImpactVelocity from the linked game-logic variant. -/
noncomputable def calculateImpactVelocity (s : Settings) (accel : Vec3)
    (history : List HistEntry) : ImpactOutcome :=
  if history.length < 5 then
    ⟨⟨accel.x * 5, accel.y * 5, accel.z * 5⟩, true⟩
  else
    let current := history.getD (history.length - 1) defaultHistEntry
    let previous := history.getD (history.length - 5) defaultHistEntry
    let dt := (current.timestamp - previous.timestamp) / 1000
    if dt = 0 then ⟨⟨0, 0, 0⟩, false⟩
    else
      let vx := (current.position.x - previous.position.x) / dt
      let vy := (current.position.y - previous.position.y) / dt
      let vz := (current.position.z - previous.position.z) / dt
      ⟨impactTransform s ⟨vx, vy, vz⟩, false⟩

/-- C5: with fewer than 5 history samples the resolver returns the
acceleration-times-5 fallback and flags it; with at least 5 samples it uses
the most recent and the 5th-most-recent samples, returns the zero vector
when their elapsed time is zero, and otherwise feeds the raw finite
difference (posNow - posThen) / ((tNow - tThen)/1000) into the transform
pipeline, unflagged. -/
theorem calculateImpactVelocity_spec (s : Settings) (accel : Vec3)
    (history : List HistEntry) :
    (history.length < 5 →
      calculateImpactVelocity s accel history =
        ⟨⟨accel.x * 5, accel.y * 5, accel.z * 5⟩, true⟩) ∧
    (5 ≤ history.length →
      (((history.getD (history.length - 1) defaultHistEntry).timestamp -
         (history.getD (history.length - 5) defaultHistEntry).timestamp) / 1000 = 0 →
        calculateImpactVelocity s accel history = ⟨⟨0, 0, 0⟩, false⟩) ∧
      (((history.getD (history.length - 1) defaultHistEntry).timestamp -
         (history.getD (history.length - 5) defaultHistEntry).timestamp) / 1000 ≠ 0 →
        calculateImpactVelocity s accel history =
          ⟨impactTransform s
            ⟨((history.getD (history.length - 1) defaultHistEntry).position.x -
              (history.getD (history.length - 5) defaultHistEntry).position.x) /
              (((history.getD (history.length - 1) defaultHistEntry).timestamp -
                (history.getD (history.length - 5) defaultHistEntry).timestamp) / 1000),
             ((history.getD (history.length - 1) defaultHistEntry).position.y -
              (history.getD (history.length - 5) defaultHistEntry).position.y) /
              (((history.getD (history.length - 1) defaultHistEntry).timestamp -
                (history.getD (history.length - 5) defaultHistEntry).timestamp) / 1000),
             ((history.getD (history.length - 1) defaultHistEntry).position.z -
              (history.getD (history.length - 5) defaultHistEntry).position.z) /
              (((history.getD (history.length - 1) defaultHistEntry).timestamp -
                (history.getD (history.length - 5) defaultHistEntry).timestamp) / 1000)⟩,
           false⟩)) := by
  refine ⟨fun hlt => ?_, fun hge => ⟨fun hdt => ?_, fun hdt => ?_⟩⟩
  · unfold calculateImpactVelocity
    rw [if_pos hlt]
  · unfold calculateImpactVelocity
    rw [if_neg (by omega), if_pos hdt]
  · unfold calculateImpactVelocity
    rw [if_neg (by omega), if_neg hdt]

/-- Concrete witness for C5: an empty history triggers the flagged
acceleration-based fallback. -/
theorem calculateImpactVelocity_spec_witness :
    ([] : List HistEntry).length < 5 ∧
    calculateImpactVelocity testSettings ⟨1, 2, 3⟩ [] =
      ⟨⟨1 * 5, 2 * 5, 3 * 5⟩, true⟩ :=
  ⟨by norm_num,
   (calculateImpactVelocity_spec testSettings ⟨1, 2, 3⟩ []).1 (by norm_num)⟩

/-- C6: on the normal (at least 5 samples) path the z component of the
resolved velocity is the absolute value of the scaled raw z velocity, hence
always nonnegative (and zero on the zero-elapsed-time guard path). -/
theorem impactVelocity_forward_z (s : Settings) (accel : Vec3)
    (history : List HistEntry) (h5 : 5 ≤ history.length) :
    0 ≤ (calculateImpactVelocity s accel history).velocity.z ∧
    (((history.getD (history.length - 1) defaultHistEntry).timestamp -
       (history.getD (history.length - 5) defaultHistEntry).timestamp) / 1000 ≠ 0 →
      (calculateImpactVelocity s accel history).velocity.z =
        |((history.getD (history.length - 1) defaultHistEntry).position.z -
          (history.getD (history.length - 5) defaultHistEntry).position.z) /
          (((history.getD (history.length - 1) defaultHistEntry).timestamp -
            (history.getD (history.length - 5) defaultHistEntry).timestamp) / 1000) *
          (s.clubWeight / 200 * s.impactPower)|) := by
  unfold calculateImpactVelocity
  rw [if_neg (by omega)]
  by_cases hdt : ((history.getD (history.length - 1) defaultHistEntry).timestamp -
      (history.getD (history.length - 5) defaultHistEntry).timestamp) / 1000 = 0
  · rw [if_pos hdt]
    exact ⟨le_refl 0, fun h => absurd hdt h⟩
  · rw [if_neg hdt]
    exact ⟨abs_nonneg _, fun _ => rfl⟩

/-- A five-sample history with motion toward the player in z, exercising
the forward-flight guarantee. -/
def fiveSampleHistory : List HistEntry :=
  [⟨⟨0, 0, 0⟩, 0⟩, ⟨⟨0, 0, -0.1⟩, 100⟩, ⟨⟨0, 0, -0.2⟩, 200⟩,
   ⟨⟨0, 0, -0.3⟩, 300⟩, ⟨⟨0, 0, -0.4⟩, 400⟩]

/-- Concrete witness for C6: with five samples moving in negative z the
resolved z component is still nonnegative. -/
theorem impactVelocity_forward_z_witness :
    5 ≤ fiveSampleHistory.length ∧
    0 ≤ (calculateImpactVelocity testSettings ⟨0, 0, 0⟩
      fiveSampleHistory).velocity.z :=
  ⟨by norm_num [fiveSampleHistory],
   (impactVelocity_forward_z testSettings ⟨0, 0, 0⟩ fiveSampleHistory
     (by norm_num [fiveSampleHistory])).1⟩

/- ============================================================
   Ball flight physics (claims C8, C10), from updateBallPhysics and
   resetBallFlight in physics.js and launchBall in the linked game-logic
   variant.  The per-tick force sections of updateBallPhysics are factored
   into applyGravity, applyMagnus and applyDrag in source order; the
   isFinite guards on the Magnus components always pass over the reals.
   The swing-replay recorder update and the sounds at landing touch no
   modelled state and are omitted.
   ============================================================ -/

/-- The lastShot record written when the ball lands. -/
structure ShotRecord where
  distance : ℝ
  maxHeight : ℝ
  impactSpeed : ℝ
  velocity : Vec3
  spin : Vec3
  targetAccuracy : Option ℝ

/-- ballFlight from physics.js. -/
structure FlightState where
  position : Vec3
  velocity : Vec3
  spin : Vec3
  initialSpin : Vec3
  flying : Bool
  landingDistance : ℝ
  maxHeight : ℝ
  trajectory : List Vec3

/-- targetState from the game-logic module (read at landing). -/
structure TargetState where
  position : Vec3
  active : Bool

/-- The slice of module state that updateBallPhysics reads and writes:
ballFlight, lastShot, and the game state it sets at landing. -/
structure PhysicsState where
  flight : FlightState
  lastShot : ShotRecord
  currentState : GameState

/-- Gravity section of updateBallPhysics: velocity.y += -gravity * dt. -/
noncomputable def applyGravity (s : Settings) (dt : ℝ) (v : Vec3) : Vec3 :=
  ⟨v.x, v.y + -s.gravity * dt, v.z⟩

/-- Magnus section of updateBallPhysics: when spinEffect > 0, the cross
product spin x velocity scaled by spinEffect * 1e-5 is added to the
velocity over dt and the spin decays by 0.98; otherwise both pass through. -/
noncomputable def applyMagnus (s : Settings) (dt : ℝ) (spin v : Vec3) :
    Vec3 × Vec3 :=
  if s.spinEffect > 0 then
    let spinFactor := s.spinEffect * 0.00001
    let magnusX := spinFactor * (spin.y * v.z - spin.z * v.y)
    let magnusY := spinFactor * (spin.z * v.x - spin.x * v.z)
    let magnusZ := spinFactor * (spin.x * v.y - spin.y * v.x)
    (⟨v.x + magnusX * dt, v.y + magnusY * dt, v.z + magnusZ * dt⟩,
     ⟨spin.x * 0.98, spin.y * 0.98, spin.z * 0.98⟩)
  else (v, spin)

/-- Drag section of updateBallPhysics: horizontal components are damped by
1 - airResistance * 0.01 unconditionally, the vertical one only while
ascending. -/
noncomputable def applyDrag (s : Settings) (v : Vec3) : Vec3 :=
  if s.airResistance > 0 then
    let dragFactor := s.airResistance * 0.01
    ⟨v.x * (1 - dragFactor),
     if v.y > 0 then v.y * (1 - dragFactor) else v.y,
     v.z * (1 - dragFactor)⟩
  else v

/-- updateBallPhysics from physics.js: immediate return when not flying or
when dt exceeds 0.1 s; otherwise gravity, Magnus, drag, position
integration, trajectory append, max-height tracking, and on ground contact
(position.y at most 0 with velocity.y negative) the y clamp, landing
distance, lastShot finalization from swingData.impactVelocity and the
pre-decay initialSpin, and the transition to SHOWING_RESULTS. -/
noncomputable def updateBallPhysics (deltaTime : ℝ) (s : Settings)
    (impactVelocity : Vec3) (target : TargetState) (st : PhysicsState) :
    PhysicsState :=
  if st.flight.flying = false then st
  else
    let dt := deltaTime / 1000
    if dt > 0.1 then st
    else
      let vs := applyMagnus s dt st.flight.spin (applyGravity s dt st.flight.velocity)
      let vel := applyDrag s vs.1
      let pos : Vec3 := ⟨st.flight.position.x + vel.x * dt,
                         st.flight.position.y + vel.y * dt,
                         st.flight.position.z + vel.z * dt⟩
      let traj := st.flight.trajectory ++ [pos]
      let maxH := if pos.y > st.flight.maxHeight then pos.y else st.flight.maxHeight
      if pos.y ≤ 0 ∧ vel.y < 0 then
        let landedPos : Vec3 := ⟨pos.x, 0, pos.z⟩
        let landing := Real.sqrt (landedPos.x ^ 2 + landedPos.z ^ 2)
        let acc :=
          if target.active then
            some (Real.sqrt ((landedPos.x - target.position.x) ^ 2 +
              (landedPos.z - target.position.z) ^ 2))
          else none
        { flight :=
            { st.flight with
                position := landedPos
                velocity := vel
                spin := vs.2
                flying := false
                landingDistance := landing
                maxHeight := maxH
                trajectory := traj }
          lastShot :=
            { distance := landing
              maxHeight := maxH
              impactSpeed := vecMag impactVelocity
              velocity := impactVelocity
              spin := st.flight.initialSpin
              targetAccuracy := acc }
          currentState := GameState.showingResults }
      else
        { st with
            flight :=
              { st.flight with
                  position := pos
                  velocity := vel
                  spin := vs.2
                  maxHeight := maxH
                  trajectory := traj } }

/-- launchBall from the linked game-logic variant: ball-weight scaling
45.9 / ballWeight, spin derivation from the scaled velocity (sidespin
-(vx/r) * 0.02, backspin (vy/r) * 0.05, no rifle spin), initialSpin saved
alongside spin, and flight state initialization.  The isFinite guards
always pass over the reals. -/
noncomputable def launchBall (s : Settings) (initialVelocity : Vec3)
    (st : PhysicsState) : PhysicsState :=
  let ballWeightFactor := 45.9 / s.ballWeight
  let vx := initialVelocity.x * ballWeightFactor
  let vy := initialVelocity.y * ballWeightFactor
  let vz := initialVelocity.z * ballWeightFactor
  let ballRadius := s.ballDiameter / 100 / 2
  let spin : Vec3 :=
    if ballRadius > 0 then
      ⟨vy / ballRadius * 0.05, -(vx / ballRadius) * 0.02, 0⟩
    else ⟨0, 0, 0⟩
  { flight :=
      { position := ⟨0, 0, 0⟩
        velocity := ⟨vx, vy, vz⟩
        spin := spin
        initialSpin := spin
        flying := true
        landingDistance := st.flight.landingDistance
        maxHeight := 0
        trajectory := [⟨0, 0, 0⟩] }
    lastShot := { st.lastShot with velocity := ⟨vx, vy, vz⟩, spin := spin }
    currentState := st.currentState }

/-- Invariant carried through the flight: initialSpin stays what it was at
launch, and once flying is false the finalized lastShot reports that spin
and the ground distance of the final position. -/
def landedSpec (σ : Vec3) (st : PhysicsState) : Prop :=
  st.flight.initialSpin = σ ∧
  (st.flight.flying = false →
    st.lastShot.spin = σ ∧
    st.lastShot.distance =
      Real.sqrt (st.flight.position.x ^ 2 + st.flight.position.z ^ 2))

lemma landedSpec_step (s : Settings) (ivp : Vec3) (target : TargetState)
    (σ : Vec3) (d : ℝ) (st : PhysicsState) (h : landedSpec σ st) :
    landedSpec σ (updateBallPhysics d s ivp target st) := by
  obtain ⟨h1, h2⟩ := h
  unfold updateBallPhysics
  by_cases hf : st.flight.flying = false
  · rw [if_pos hf]
    exact ⟨h1, h2⟩
  · rw [if_neg hf]
    by_cases hdt : d / 1000 > 0.1
    · rw [if_pos hdt]
      exact ⟨h1, h2⟩
    · rw [if_neg hdt]
      simp only []
      split
      · exact ⟨h1, fun _ => ⟨h1, rfl⟩⟩
      · exact ⟨h1, fun hc => absurd hc hf⟩

lemma landedSpec_fold (s : Settings) (ivp : Vec3) (target : TargetState)
    (σ : Vec3) (dts : List ℝ) :
    ∀ st : PhysicsState, landedSpec σ st →
      landedSpec σ (dts.foldl (fun acc d => updateBallPhysics d s ivp target acc) st) := by
  induction dts with
  | nil => exact fun st h => h
  | cons d l ih =>
      intro st h
      exact ih _ (landedSpec_step s ivp target σ d st h)

/-- C8: for any flight started by launchBall and stepped by updateBallPhysics
any number of times, if the ball has landed (flying is false) then the
finalized lastShot reports the spin the ball had at launch (before any
per-tick 0.98 decay) and a landing distance equal to
sqrt(position.x^2 + position.z^2) at the landing step (the position is
frozen from that step on). -/
theorem launchBall_lastShot_spin_distance (s : Settings) (iv ivp : Vec3)
    (target : TargetState) (st0 : PhysicsState) (dts : List ℝ)
    (hland : (dts.foldl (fun acc d => updateBallPhysics d s ivp target acc)
      (launchBall s iv st0)).flight.flying = false) :
    (dts.foldl (fun acc d => updateBallPhysics d s ivp target acc)
      (launchBall s iv st0)).lastShot.spin = (launchBall s iv st0).flight.spin ∧
    (dts.foldl (fun acc d => updateBallPhysics d s ivp target acc)
      (launchBall s iv st0)).lastShot.distance =
      Real.sqrt ((dts.foldl (fun acc d => updateBallPhysics d s ivp target acc)
          (launchBall s iv st0)).flight.position.x ^ 2 +
        (dts.foldl (fun acc d => updateBallPhysics d s ivp target acc)
          (launchBall s iv st0)).flight.position.z ^ 2) := by
  have hbase : landedSpec (launchBall s iv st0).flight.spin (launchBall s iv st0) := by
    refine ⟨rfl, fun hc => ?_⟩
    simp [launchBall] at hc
  exact (landedSpec_fold s ivp target (launchBall s iv st0).flight.spin dts
    (launchBall s iv st0) hbase).2 hland

/-- C10: stepping the simulator while ballFlight.flying is false leaves the
whole physics state (flight record, lastShot, game state) unchanged. -/
theorem updateBallPhysics_noop_when_not_flying (deltaTime : ℝ) (s : Settings)
    (ivp : Vec3) (target : TargetState) (st : PhysicsState)
    (h : st.flight.flying = false) :
    updateBallPhysics deltaTime s ivp target st = st := by
  unfold updateBallPhysics
  rw [if_pos h]

/-- A grounded physics state (the resetBallFlight values). -/
def groundedPhysicsState : PhysicsState :=
  { flight :=
      { position := ⟨0, 0, 0⟩
        velocity := ⟨0, 0, 0⟩
        spin := ⟨0, 0, 0⟩
        initialSpin := ⟨0, 0, 0⟩
        flying := false
        landingDistance := 0
        maxHeight := 0
        trajectory := [] }
    lastShot :=
      { distance := 0
        maxHeight := 0
        impactSpeed := 0
        velocity := ⟨0, 0, 0⟩
        spin := ⟨0, 0, 0⟩
        targetAccuracy := none }
    currentState := GameState.readyToSetBall }

/-- An inactive target fixture. -/
def idleTarget : TargetState := ⟨⟨0, 0, 50⟩, false⟩

/-- Concrete witness for C10: a 16 ms tick on a grounded state is the
identity. -/
theorem updateBallPhysics_noop_witness :
    groundedPhysicsState.flight.flying = false ∧
    updateBallPhysics 16 testSettings ⟨0, 0, 0⟩ idleTarget groundedPhysicsState =
      groundedPhysicsState :=
  ⟨rfl, updateBallPhysics_noop_when_not_flying 16 testSettings ⟨0, 0, 0⟩
    idleTarget groundedPhysicsState rfl⟩

/-- Settings that make the witness flight land in one tick: gravity 10, no
drag, no Magnus effect. -/
def calmSettings : Settings :=
  { testSettings with gravity := 10, airResistance := 0, spinEffect := 0 }

/-- Concrete witness for C8: a zero-velocity launch under calmSettings lands
on the first 100 ms tick, and the finalized lastShot spin equals the launch
spin. -/
theorem launchBall_lastShot_witness :
    ([(100 : ℝ)].foldl (fun acc d => updateBallPhysics d calmSettings ⟨0, 0, 0⟩
        idleTarget acc) (launchBall calmSettings ⟨0, 0, 0⟩ groundedPhysicsState)).flight.flying
      = false ∧
    ([(100 : ℝ)].foldl (fun acc d => updateBallPhysics d calmSettings ⟨0, 0, 0⟩
        idleTarget acc) (launchBall calmSettings ⟨0, 0, 0⟩ groundedPhysicsState)).lastShot.spin
      = (launchBall calmSettings ⟨0, 0, 0⟩ groundedPhysicsState).flight.spin := by
  have hland : ([(100 : ℝ)].foldl (fun acc d => updateBallPhysics d calmSettings ⟨0, 0, 0⟩
      idleTarget acc) (launchBall calmSettings ⟨0, 0, 0⟩ groundedPhysicsState)).flight.flying
      = false := by
    simp only [List.foldl_cons, List.foldl_nil]
    unfold updateBallPhysics launchBall applyMagnus applyGravity applyDrag
    norm_num [calmSettings, testSettings]
  exact ⟨hland, (launchBall_lastShot_spin_distance calmSettings ⟨0, 0, 0⟩ ⟨0, 0, 0⟩
    idleTarget groundedPhysicsState [100] hland).1⟩

/- ============================================================
   Club tip tracking with motion gating (claim C7), from the tracking
   variant bundled with config.js (the one owning trackingActive,
   motionThreshold and maxTrackingDuration) together with the history
   clearing in setBallPosition and resetTracking.

   The quaternion and the derived tip position are Option values: none
   models the all-NaN quaternion produced by the unguarded Madgwick
   division (NaN propagates through every arithmetic path of the source,
   so a NaN quaternion stays NaN and yields NaN positions).  History
   samples keep their Option position plus the Date.now() timestamp.
   Each branch of the update is written as a single record update of the
   incoming state, combining the mutations that branch performs in source
   order; the once-only max-duration debug warning and the replay-recorder
   push change no modelled state and are omitted, and tipVelocity is never
   written outside reset, so it is not carried. -/

/-- One clubTipTracking.history entry in the gated tracking variant. -/
structure TrackSample where
  position : Option Vec3
  timestamp : ℝ

/-- The clubTipTracking record of the gated tracking variant. -/
structure TrackState where
  quaternion : Option Quat
  tipPosition : Option Vec3
  offset : Vec3
  history : List TrackSample
  lastUpdateTime : ℝ
  frameCount : ℕ
  startTime : ℝ
  trackingActive : Bool
  trackingStartTime : ℝ

/-- clubTipTracking.motionThreshold (m/s^2). -/
def motionThreshold : ℝ := 2.0

/-- clubTipTracking.maxTrackingDuration (seconds). -/
def maxTrackingDuration : ℝ := 2.0

/-- clubTipTracking.beta, the Madgwick filter gain. -/
def betaGain : ℝ := 0.1

/-- One sensor sample as consumed by updateClubTipTracking: Date.now(),
imuData.acceleration, imuData.rotationRate (alpha, beta, gamma as x, y, z)
and the compass heading (none when unavailable, as sensors.js keeps it
null). -/
structure TrackInput where
  now : ℝ
  accel : Vec3
  rot : Vec3
  compass : Option ℝ

/-- The Madgwick call on the mutable quaternion state: a NaN quaternion
stays NaN. -/
noncomputable def madgwickStep (q : Option Quat) (g a m : Vec3) (dt : ℝ) :
    Option Quat :=
  match q with
  | none => none
  | some qq => madgwickFilterUpdate betaGain qq g a m dt

/-- calculateClubTipPosition of the gated tracking variant (no grip-mode
remap there): the local club vector (0, -clubLength, 0) rotated by the
quaternion sandwich product, shifted by clubLength on y and by the stored
calibration offset. -/
noncomputable def calculateClubTipPosition (s : Settings) (q : Quat)
    (offset : Vec3) : Vec3 :=
  let clubLength := s.clubLength
  let localX : ℝ := 0
  let localY := -clubLength
  let localZ : ℝ := 0
  let ix := q.w * localX + q.y * localZ - q.z * localY
  let iy := q.w * localY + q.z * localX - q.x * localZ
  let iz := q.w * localZ + q.x * localY - q.y * localX
  let iw := -q.x * localX - q.y * localY - q.z * localZ
  let tipX := ix * q.w + iw * -q.x + iy * -q.z - iz * -q.y
  let tipY := iy * q.w + iw * -q.y + iz * -q.x - ix * -q.z
  let tipZ := iz * q.w + iw * -q.z + ix * -q.y - iy * -q.x
  ⟨tipX - offset.x, (tipY + clubLength) - offset.y, tipZ - offset.z⟩

/-- updateClubTipTracking of the gated tracking variant: timestamp
initialization on the first call, the 0.1 s stale-delta skip, the motion
gate while the ball is set and tracking is not yet active (activation
clears the history and records trackingStartTime; either way the call
returns before any position work), and otherwise the Madgwick update with
the sensor axis inversions, the tip position, the history push, and the
final history filter (samples from the active window only when tracking is
active, empty history otherwise). -/
noncomputable def updateClubTipTracking (s : Settings) (ballSet : Bool)
    (inp : TrackInput) (st : TrackState) : TrackState :=
  if st.lastUpdateTime = 0 then
    { st with lastUpdateTime := inp.now, startTime := inp.now }
  else
    let dt := (inp.now - st.lastUpdateTime) / 1000
    if dt > 0.1 then { st with lastUpdateTime := inp.now }
    else if ballSet = true ∧ st.trackingActive = false then
      let accelMag :=
        Real.sqrt (inp.accel.x ^ 2 + inp.accel.y ^ 2 + inp.accel.z ^ 2)
      if accelMag > motionThreshold then
        { st with
            lastUpdateTime := inp.now
            frameCount := st.frameCount + 1
            trackingActive := true
            trackingStartTime := inp.now
            history := [] }
      else
        { st with
            lastUpdateTime := inp.now
            frameCount := st.frameCount + 1 }
    else
      let m : Vec3 :=
        match inp.compass with
        | some heading =>
            let headingRad := heading * Real.pi / 180
            ⟨Real.cos headingRad, Real.sin headingRad, 0⟩
        | none => ⟨0, 0, 0⟩
      let q2 := madgwickStep st.quaternion
        ⟨-inp.rot.x, -inp.rot.y, -inp.rot.z⟩
        ⟨-inp.accel.x, -inp.accel.y, inp.accel.z⟩ m dt
      let tip := q2.map (fun qq => calculateClubTipPosition s qq st.offset)
      let pushed := st.history ++ [⟨tip, inp.now⟩]
      if st.trackingActive = true then
        { st with
            lastUpdateTime := inp.now
            frameCount := st.frameCount + 1
            quaternion := q2
            tipPosition := tip
            history := pushed.filter
              (fun e => decide (st.trackingStartTime ≤ e.timestamp)) }
      else
        { st with
            lastUpdateTime := inp.now
            frameCount := st.frameCount + 1
            quaternion := q2
            tipPosition := tip
            history := [] }

/-- resetTracking from the gated tracking variant. -/
def resetTracking : TrackState :=
  { quaternion := some ⟨1, 0, 0, 0⟩
    tipPosition := some ⟨0, 0, 0⟩
    offset := ⟨0, 0, 0⟩
    history := []
    lastUpdateTime := 0
    frameCount := 0
    startTime := 0
    trackingActive := false
    trackingStartTime := 0 }

/-- The calibration block of setBallPosition: the current tip position is
accumulated into the offset, the history is cleared and lastUpdateTime is
refreshed.  With a NaN tip position the source would accumulate NaN into
the offset; the none fallback keeps the offset unchanged instead, which is
irrelevant to the history-clearing property studied here. -/
noncomputable def setBallCalibrate (now : ℝ) (st : TrackState) : TrackState :=
  { st with
      offset :=
        match st.tipPosition with
        | some t => ⟨t.x + st.offset.x, t.y + st.offset.y, t.z + st.offset.z⟩
        | none => st.offset
      history := []
      lastUpdateTime := now }

/-- History window invariant: while tracking is active every retained
sample is from the active window (timestamp at least trackingStartTime),
and while tracking is inactive the history is empty. -/
def historyWindowInv (st : TrackState) : Prop :=
  (st.trackingActive = true →
    ∀ e ∈ st.history, st.trackingStartTime ≤ e.timestamp) ∧
  (st.trackingActive = false → st.history = [])

/-- C7 amended: every update preserves the window invariant (samples only
from the active tracking window, none at all while inactive), no sample is
recorded before the motion gate triggers, and both the setBallPosition
calibration and resetTracking clear the history.  No duration bound is
part of the invariant: exceeding maxTrackingDuration only triggers a debug
warning in the source and evicts nothing. -/
theorem updateClubTipTracking_window_invariant (s : Settings) (ballSet : Bool)
    (inp : TrackInput) (st : TrackState) (hinv : historyWindowInv st) :
    historyWindowInv (updateClubTipTracking s ballSet inp st) ∧
    (st.trackingActive = false →
      (updateClubTipTracking s ballSet inp st).history = []) ∧
    (setBallCalibrate inp.now st).history = [] ∧
    resetTracking.history = [] := by
  refine ⟨?_, ?_, rfl, rfl⟩ <;> unfold updateClubTipTracking
  · by_cases c1 : st.lastUpdateTime = 0
    · rw [if_pos c1]
      exact ⟨hinv.1, hinv.2⟩
    · rw [if_neg c1]
      by_cases c2 : (inp.now - st.lastUpdateTime) / 1000 > 0.1
      · rw [if_pos c2]
        exact ⟨hinv.1, hinv.2⟩
      · rw [if_neg c2]
        by_cases c3 : ballSet = true ∧ st.trackingActive = false
        · rw [if_pos c3]
          by_cases c4 : Real.sqrt (inp.accel.x ^ 2 + inp.accel.y ^ 2 +
              inp.accel.z ^ 2) > motionThreshold
          · rw [if_pos c4]
            exact ⟨fun _ e he => absurd he (List.not_mem_nil e), fun _ => rfl⟩
          · rw [if_neg c4]
            exact ⟨hinv.1, hinv.2⟩
        · rw [if_neg c3]
          by_cases c5 : st.trackingActive = true
          · rw [if_pos c5]
            refine ⟨fun _ e he => ?_, fun hf =>
              Bool.noConfusion
                (c5.symm.trans (show st.trackingActive = false from hf))⟩
            have := List.of_mem_filter he
            exact of_decide_eq_true this
          · rw [if_neg c5]
            exact ⟨fun ht => absurd ht c5, fun _ => rfl⟩
  · intro hf
    by_cases c1 : st.lastUpdateTime = 0
    · rw [if_pos c1]
      exact hinv.2 hf
    · rw [if_neg c1]
      by_cases c2 : (inp.now - st.lastUpdateTime) / 1000 > 0.1
      · rw [if_pos c2]
        exact hinv.2 hf
      · rw [if_neg c2]
        by_cases c3 : ballSet = true ∧ st.trackingActive = false
        · rw [if_pos c3]
          by_cases c4 : Real.sqrt (inp.accel.x ^ 2 + inp.accel.y ^ 2 +
              inp.accel.z ^ 2) > motionThreshold
          · rw [if_pos c4]
          · rw [if_neg c4]
            exact hinv.2 hf
        · rw [if_neg c3]
          rw [if_neg (by simp [hf])]

/-- Concrete witness for C7 (amended): the reset state satisfies the window
invariant, and an update on it while the ball is set records nothing. -/
theorem updateClubTipTracking_window_invariant_witness :
    historyWindowInv resetTracking ∧
    (updateClubTipTracking testSettings true ⟨1000, ⟨0, 0, 3⟩, ⟨0, 0, 0⟩, none⟩
      resetTracking).history = [] := by
  have hinv : historyWindowInv resetTracking :=
    ⟨fun h => absurd h (by decide), fun _ => rfl⟩
  exact ⟨hinv, (updateClubTipTracking_window_invariant testSettings true
    ⟨1000, ⟨0, 0, 3⟩, ⟨0, 0, 0⟩, none⟩ resetTracking hinv).2.1 rfl⟩

/- ============================================================
   C7 counterexample run: with the ball set, a constant (0,0,3)
   acceleration stream at 10 Hz starting at t = 1000 ms triggers the
   motion gate at t = 1100 ms and then keeps recording history samples
   forever; after the tick at t = 3500 ms the oldest retained sample
   (t = 1200 ms) is 2300 ms old, past both maxTrackingDuration (2 s)
   and half of it.
   ============================================================ -/

/-- A constant sensor input: acceleration (0,0,3), zero gyro, no compass. -/
def steadyInput (t : ℝ) : TrackInput := ⟨t, ⟨0, 0, 3⟩, ⟨0, 0, 0⟩, none⟩

/-- The tracking state after the init tick at t = 1000 and the
gate-triggering tick at t = 1100. -/
noncomputable def c7Start : TrackState :=
  updateClubTipTracking testSettings true (steadyInput 1100)
    (updateClubTipTracking testSettings true (steadyInput 1000) resetTracking)

/-- The tracking state after n further ticks at t = 1200, 1300, ... . -/
noncomputable def c7State : ℕ → TrackState
  | 0 => c7Start
  | n + 1 =>
      updateClubTipTracking testSettings true
        (steadyInput (1200 + 100 * n)) (c7State n)

/-- Closed form of the counterexample run: tracking active since 1100 ms,
one history sample per tick from 1200 ms on, quaternion NaN from the first
post-activation Madgwick call (the aligned-gravity zero-gradient input). -/
noncomputable def c7Expected (n : ℕ) : TrackState :=
  { quaternion := if n = 0 then some ⟨1, 0, 0, 0⟩ else none
    tipPosition := if n = 0 then some ⟨0, 0, 0⟩ else none
    offset := ⟨0, 0, 0⟩
    history := (List.range n).map
      (fun k : ℕ => (⟨none, 1200 + 100 * (k : ℝ)⟩ : TrackSample))
    lastUpdateTime := 1100 + 100 * (n : ℝ)
    frameCount := 1 + n
    startTime := 1000
    trackingActive := true
    trackingStartTime := 1100 }

lemma sqrt_steady_accel : Real.sqrt ((0 : ℝ) ^ 2 + 0 ^ 2 + 3 ^ 2) = 3 := by
  rw [show (0 : ℝ) ^ 2 + 0 ^ 2 + 3 ^ 2 = 3 ^ 2 by norm_num]
  exact Real.sqrt_sq (by norm_num)

lemma c7Start_eq : c7Start = c7Expected 0 := by
  have h1 : updateClubTipTracking testSettings true (steadyInput 1000)
      resetTracking =
      { resetTracking with lastUpdateTime := 1000, startTime := 1000 } := by
    unfold updateClubTipTracking
    rw [if_pos (show resetTracking.lastUpdateTime = 0 from rfl)]
    rfl
  unfold c7Start
  rw [h1]
  unfold updateClubTipTracking
  rw [if_neg (by norm_num [resetTracking] :
    ¬ ({ resetTracking with lastUpdateTime := (1000 : ℝ), startTime := (1000 : ℝ) }
      : TrackState).lastUpdateTime = 0)]
  rw [if_neg (by norm_num [steadyInput, resetTracking])]
  rw [if_pos (by exact ⟨rfl, rfl⟩)]
  rw [if_pos (by
    simp only [steadyInput]
    rw [sqrt_steady_accel]
    norm_num [motionThreshold])]
  simp only [c7Expected, steadyInput, resetTracking]
  norm_num

lemma c7_filter (n : ℕ) :
    ((List.range n).map
        (fun k : ℕ => (⟨none, 1200 + 100 * (k : ℝ)⟩ : TrackSample)) ++
      [(⟨none, 1200 + 100 * (n : ℝ)⟩ : TrackSample)]).filter
        (fun e => decide ((1100 : ℝ) ≤ e.timestamp)) =
      (List.range (n + 1)).map
        (fun k : ℕ => (⟨none, 1200 + 100 * (k : ℝ)⟩ : TrackSample)) := by
  rw [List.range_succ, List.map_append]
  apply List.filter_eq_self.mpr
  intro e he
  simp only [List.mem_append, List.mem_map, List.mem_range,
    List.map_cons, List.map_nil, List.mem_singleton] at he
  rcases he with ⟨k, _, rfl⟩ | rfl
  · simp only [decide_eq_true_eq]
    have hk : (0 : ℝ) ≤ (k : ℝ) := Nat.cast_nonneg k
    linarith
  · simp only [decide_eq_true_eq]
    have hn : (0 : ℝ) ≤ (n : ℝ) := Nat.cast_nonneg n
    linarith

lemma c7State_eq : ∀ n, c7State n = c7Expected n := by
  intro n
  induction n with
  | zero => exact c7Start_eq
  | succ n ih =>
      show updateClubTipTracking testSettings true
        (steadyInput (1200 + 100 * n)) (c7State n) = c7Expected (n + 1)
      rw [ih]
      unfold updateClubTipTracking
      rw [if_neg (by
        show ¬ (1100 + 100 * (n : ℝ) = 0)
        have hn : (0 : ℝ) ≤ (n : ℝ) := Nat.cast_nonneg n
        intro hz
        linarith)]
      rw [if_neg (by
        show ¬ ((1200 + 100 * (n : ℝ)) - (1100 + 100 * (n : ℝ))) / 1000 > 0.1
        norm_num)]
      rw [if_neg (by
        show ¬ (true = true ∧ (c7Expected n).trackingActive = false)
        simp [c7Expected])]
      rw [if_pos (show (c7Expected n).trackingActive = true from rfl)]
      have hq : madgwickStep (c7Expected n).quaternion
          ⟨-(steadyInput (1200 + 100 * n)).rot.x,
           -(steadyInput (1200 + 100 * n)).rot.y,
           -(steadyInput (1200 + 100 * n)).rot.z⟩
          ⟨-(steadyInput (1200 + 100 * n)).accel.x,
           -(steadyInput (1200 + 100 * n)).accel.y,
           (steadyInput (1200 + 100 * n)).accel.z⟩
          (match (steadyInput (1200 + 100 * n)).compass with
           | some heading =>
               let headingRad := heading * Real.pi / 180
               ⟨Real.cos headingRad, Real.sin headingRad, 0⟩
           | none => ⟨0, 0, 0⟩)
          (((steadyInput (1200 + 100 * n)).now -
            (c7Expected n).lastUpdateTime) / 1000)
          = none := by
        simp only [steadyInput, c7Expected]
        by_cases hn : n = 0
        · rw [if_pos hn]
          unfold madgwickStep
          rw [show (⟨-(0 : ℝ), -0, -0⟩ : Vec3) = ⟨0, 0, 0⟩ by norm_num]
          rw [show (⟨-(0 : ℝ), -0, 3⟩ : Vec3) = ⟨0, 0, 3⟩ by norm_num]
          exact madgwick_aligned_gravity_nan betaGain _ 3 (by norm_num)
        · rw [if_neg hn]
          rfl
      rw [hq]
      simp only [Option.map_none', c7Expected, steadyInput,
        Nat.succ_ne_zero, if_false]
      rw [c7_filter n]
      simp only [TrackState.mk.injEq, and_true, true_and]
      constructor
      · push_cast
        ring
      · omega

/-- C7 counterexample: after the tick at 3500 ms the history still holds
the sample recorded at 1200 ms, which is 2300 ms old — older than both
maxTrackingDuration/2 and maxTrackingDuration allow; the code never evicts
by age once tracking is active. -/
theorem tracking_history_outlives_window :
    ¬ (∀ e ∈ (c7State 24).history,
        (c7State 24).lastUpdateTime - e.timestamp ≤
          1000 * (maxTrackingDuration / 2)) ∧
    ¬ (∀ e ∈ (c7State 24).history,
        (c7State 24).lastUpdateTime - e.timestamp ≤
          1000 * maxTrackingDuration) := by
  have hm : (⟨none, 1200 + 100 * ((0 : ℕ) : ℝ)⟩ : TrackSample) ∈
      (c7State 24).history := by
    rw [c7State_eq 24]
    simp only [c7Expected]
    exact List.mem_map_of_mem
      (fun k : ℕ => (⟨none, 1200 + 100 * (k : ℝ)⟩ : TrackSample))
      (List.mem_range.mpr (by norm_num : (0 : ℕ) < 24))
  constructor
  · intro hall
    have h := hall _ hm
    rw [c7State_eq 24] at h
    norm_num [c7Expected, maxTrackingDuration] at h
  · intro hall
    have h := hall _ hm
    rw [c7State_eq 24] at h
    norm_num [c7Expected, maxTrackingDuration] at h

end AirGolf
